import Mathlib

/-!
Verification of the HelpFit attendance-to-risk analytics engine
(`backEnd.py`, function `get_student_full` and its collaborators).

Shallow embedding conventions:
- Python `datetime.date` values become `PyDate` (year, month, day as `Int`).
- pandas `to_period('M')` becomes `Period` (year, month).
- Python floats are modelled as `ℚ`; `round(x, 2)` becomes `round2`.
- The sqlite rows become `DBState` (a list of student rows and a list of
  attendance rows).  `record_attendance` stores `int(present)`, so the
  `present` column holds 0/1 and is modelled as `Bool`.
- The sklearn `LogisticRegression` fit/predict pair is not a computable
  mathematical function of its inputs (iterative solver); it is modelled as
  an abstract `Oracle` parameter giving the predicted positive-class
  probability.  `LogisticRegression.fit` raises `ValueError` when the label
  vector contains fewer than two distinct classes; that exception is
  modelled with `Except String`.
- `student.dias_contratados` comes out of a pandas row (`iloc[0]`), so it
  is a numpy int64, not a Python int: the division of the ratio fallback is
  numpy float division, which on a zero denominator yields nan (for a zero
  numerator) or a signed infinity — with a RuntimeWarning, not an
  exception — and `round(_, 2)` passes those through.  Finite float values
  are rationals, so the percent is modelled by `PyFloat`: either an exact
  rational or one of the special values nan, -inf, +inf.
-/

deriving instance DecidableEq for Except

namespace HelpFit

/-- A calendar date, as Python `datetime.date`. -/
structure PyDate where
  year : Int
  month : Int
  day : Int
deriving DecidableEq, Repr

/-- A year-month period, as pandas `to_period('M')`. -/
structure Period where
  year : Int
  month : Int
deriving DecidableEq, Repr

/-- `pandas.Timestamp.to_period('M')`: keep year and month. -/
def PyDate.toPeriod (d : PyDate) : Period := ⟨d.year, d.month⟩

/-- One row of the `students` table. -/
structure Student where
  id : String
  nome : String
  cpf : String
  data_matricula : PyDate
  data_nascimento : Option PyDate
  telefone : Option String
  sexo : Option String
  comorbidade : Option String
  dias_contratados : Int
  valor_plano : ℚ
deriving DecidableEq, Repr

/-- One row of the `attendance` table. -/
structure AttRecord where
  student_id : String
  date : PyDate
  present : Bool
deriving DecidableEq, Repr

/-- The row contents of the two tables of `helpfit.db`. -/
structure DBState where
  students : List Student
  attendance : List AttRecord
deriving DecidableEq, Repr

/-- Python `round(x, 2)` on a rational (ties are irrelevant at every value
this development evaluates). -/
def round2 (q : ℚ) : ℚ := ((round (q * 100) : ℤ) : ℚ) / 100

/-- The `present` column value of a row: `int(present)`. -/
def presentInt (r : AttRecord) : Int := if r.present then 1 else 0

/-- The rows of one student's history that fall in period `m`
(`attendance_df[attendance_df['mes'] == m]`). -/
def monthRecords (h : List AttRecord) (m : Period) : List AttRecord :=
  h.filter (fun r => r.date.toPeriod == m)

/-- The distinct periods of a history, i.e. the group keys of
`attendance_df.groupby('mes')`. -/
def periodsOf (h : List AttRecord) : List Period :=
  (h.map (fun r => r.date.toPeriod)).dedup

/-- `int(df_current['present'].sum())`: presences logged in period `m`. -/
def currentPresentes (h : List AttRecord) (m : Period) : Int :=
  ((monthRecords h m).map presentInt).sum

/-- One row of the `agg` frame built at lines 207-212 of `backEnd.py`:
per-month `presentes = sum(present)`, `total = count(present)`,
`faltas = total - presentes`, `churn = faltas > dias_contratados / 2`. -/
structure Agg where
  mes : Period
  presentes : Int
  total : Int
  faltas : Int
  churn : Bool
deriving DecidableEq, Repr

/-- The aggregate row of period `m` for history `h` and quota `c`. -/
def aggRow (h : List AttRecord) (c : Int) (m : Period) : Agg :=
  { mes := m
    presentes := ((monthRecords h m).map presentInt).sum
    total := ((monthRecords h m).length : Int)
    faltas := ((monthRecords h m).length : Int) - ((monthRecords h m).map presentInt).sum
    churn := decide
      ((((monthRecords h m).length : Int) - ((monthRecords h m).map presentInt).sum : ℚ)
        > (c : ℚ) / 2) }

/-- The whole `agg` frame: one row per distinct month of the history. -/
def aggFrame (h : List AttRecord) (c : Int) : List Agg :=
  (periodsOf h).map (aggRow h c)

/-- Abstract model of the fitted `LogisticRegression`: given the training
frame and the current (presentes, faltas) feature pair, the predicted
probability of the positive (churn) class. -/
def Oracle : Type := List Agg → Int → Int → ℚ

/-- A numpy float64 as the analytics code can produce it: an exact
rational, or one of the special values that division by zero yields. -/
inductive PyFloat where
  | val : ℚ → PyFloat
  | nan : PyFloat
  | negInf : PyFloat
  | posInf : PyFloat
deriving DecidableEq, Repr

/-- The ratio fallback of line 224 for a nonzero quota:
`round((dias_faltas / dias_contratados) * 100, 2)`. -/
def fallbackPercent (faltas contratados : Int) : ℚ :=
  round2 ((faltas : ℚ) / (contratados : ℚ) * 100)

/-- Line 224 under numpy semantics (`dias_contratados` is a numpy int64):
a zero denominator gives nan for a zero numerator and a signed infinity
otherwise — no exception — and `round(_ * 100, 2)` passes those through. -/
def fallbackPercentF (faltas contratados : Int) : PyFloat :=
  if contratados = 0 then
    if faltas = 0 then PyFloat.nan
    else if faltas < 0 then PyFloat.negInf
    else PyFloat.posInf
  else PyFloat.val (fallbackPercent faltas contratados)

/-- Lines 214-224 of `backEnd.py`: the `chance_evasao` computation.
With at least two aggregate rows the classifier is fitted — raising
`ValueError` when the churn labels form a single class — and its
probability is scaled and rounded; otherwise the ratio fallback runs,
under numpy division semantics (nan or a signed infinity on a zero
quota, no exception). -/
def riskExcept (h : List AttRecord) (c : Int) (today : PyDate) (oracle : Oracle) :
    Except String PyFloat :=
  let dias_presentes := currentPresentes h today.toPeriod
  let dias_faltas := c - dias_presentes
  let agg := aggFrame h c
  if 2 ≤ agg.length then
    if ((agg.map (fun a => a.churn)).dedup.length < 2) then
      Except.error "ValueError: This solver needs samples of at least 2 classes in the data"
    else
      Except.ok (PyFloat.val (round2 (oracle agg dias_presentes dias_faltas * 100)))
  else
    Except.ok (fallbackPercentF dias_faltas c)

/-- Lines 182-189: age from birth date and today, Python tuple comparison
`(today.month, today.day) < (birth.month, birth.day)`. -/
def mdPrecedes (a b : PyDate) : Bool :=
  a.month < b.month || (a.month == b.month && a.day < b.day)

/-- `idade` for a student with a birth date. -/
def computeAge (today birth : PyDate) : Int :=
  today.year - birth.year - (if mdPrecedes today birth then 1 else 0)

/-- Lines 192-196: enrolled months. -/
def monthsEnrolled (today matricula : PyDate) : Int :=
  (today.year - matricula.year) * 12 + (today.month - matricula.month)

/-- Line 227: `'Ativo' if dias_presentes >= dias_contratados * 0.5 else 'Inativo'`. -/
def statusFor (c dias_presentes : Int) : String :=
  if (c : ℚ) * (1 / 2) ≤ (dias_presentes : ℚ) then "Ativo" else "Inativo"

/-- The output dict of `get_student_full` (lines 230-249). -/
structure Profile where
  id : String
  nome : String
  cpf : String
  data_matricula : PyDate
  data_nascimento : Option PyDate
  idade : Option Int
  sexo : Option String
  comorbidade : Option String
  dias_contratados : Int
  dias_presentes : Int
  dias_faltas : Int
  status_matricula : String
  tempo_matricula_meses : Int
  chance_evasao_percent : PyFloat
  valor_plano : ℚ
deriving DecidableEq, Repr

/-- Assembly of the output dict once `chance_evasao` is known. -/
def mkProfile (s : Student) (today : PyDate) (h : List AttRecord) (chance : PyFloat) :
    Profile :=
  { id := s.id
    nome := s.nome
    cpf := s.cpf
    data_matricula := s.data_matricula
    data_nascimento := s.data_nascimento
    idade := s.data_nascimento.map (fun b => computeAge today b)
    sexo := s.sexo
    comorbidade := s.comorbidade
    dias_contratados := s.dias_contratados
    dias_presentes := currentPresentes h today.toPeriod
    dias_faltas := s.dias_contratados - currentPresentes h today.toPeriod
    status_matricula := statusFor s.dias_contratados (currentPresentes h today.toPeriod)
    tempo_matricula_meses := monthsEnrolled today s.data_matricula
    chance_evasao_percent := chance
    valor_plano := s.valor_plano }

/-- The attendance rows of student `s`
(`SELECT date, present FROM attendance WHERE student_id = ?`). -/
def historyOf (db : DBState) (s : Student) : List AttRecord :=
  db.attendance.filter (fun r => r.student_id == s.id)

/-- `get_student_full` (lines 147-249).  `today` is `date.today()` made
explicit; `oracle` models the fitted classifier.  Returns `.ok none` when
no student row matches the cpf (the Python `None`), `.error` when the
Python code would raise, and `.ok (some profile)` otherwise. -/
def get_student_full (db : DBState) (today : PyDate) (oracle : Oracle)
    (cpf : String) : Except String (Option Profile) :=
  match db.students.find? (fun s => s.cpf == cpf) with
  | none => Except.ok none
  | some student =>
      match riskExcept (historyOf db student) student.dias_contratados today oracle with
      | Except.error e => Except.error e
      | Except.ok chance =>
          Except.ok (some (mkProfile student today (historyOf db student) chance))

/-! ### The database operation traces of the backend functions

`get_student_full` talks to sqlite through `init_db` (DDL only) and two
SELECT queries; `record_attendance` and `delete_student` write.  The
row-level semantics of each operation kind lets the read-only character of
the profile computation be stated as a frame property. -/

/-- The database operations the backend issues. -/
inductive DBOp where
  | initTables : DBOp
  | selectStudents : String → DBOp
  | selectAttendance : String → DBOp
  | insertStudent : Student → DBOp
  | insertAttendance : AttRecord → DBOp
  | deleteByCpf : String → DBOp
deriving DecidableEq, Repr

/-- Row-level effect of one operation on the stored tables.  Deletion
cascades to the attendance rows of the removed students
(`ON DELETE CASCADE`). -/
def applyOp (db : DBState) : DBOp → DBState
  | DBOp.initTables => db
  | DBOp.selectStudents _ => db
  | DBOp.selectAttendance _ => db
  | DBOp.insertStudent s => ⟨db.students ++ [s], db.attendance⟩
  | DBOp.insertAttendance r => ⟨db.students, db.attendance ++ [r]⟩
  | DBOp.deleteByCpf c =>
      ⟨db.students.filter (fun s => !(s.cpf == c)),
       db.attendance.filter (fun r =>
         !(((db.students.filter (fun s => s.cpf == c)).map (fun s => s.id)).contains
           r.student_id))⟩

/-- The operation trace of `get_student_full` (lines 156-178): `init_db`,
the students SELECT, and — when a row matched — the attendance SELECT. -/
def get_student_full_ops (db : DBState) (cpf : String) : List DBOp :=
  [DBOp.initTables, DBOp.selectStudents cpf] ++
    (match db.students.find? (fun s => s.cpf == cpf) with
     | none => []
     | some s => [DBOp.selectAttendance s.id])

/-! ### Concrete rows used by witnesses and counterexamples -/

def wStudent : Student :=
  ⟨"S1", "Ana", "111", ⟨2023, 3, 15⟩, some ⟨2000, 6, 15⟩, none, none, none, 20, 100⟩

def wDB : DBState := ⟨[wStudent], []⟩

def wToday : PyDate := ⟨2024, 6, 15⟩

def zeroOracle : Oracle := fun _ _ _ => 0

/-- The profile `get_student_full` computes for `wStudent` on `wDB`. -/
def wProfile : Profile :=
  mkProfile wStudent wToday [] (PyFloat.val (fallbackPercent 20 20))

def s2 : Student :=
  ⟨"S2", "Bob", "222", ⟨2023, 1, 10⟩, none, none, none, none, 1, 80⟩

def db2 : DBState := ⟨[s2], [⟨"S2", ⟨2024, 1, 10⟩, false⟩, ⟨"S2", ⟨2024, 2, 10⟩, false⟩]⟩

def today2 : PyDate := ⟨2024, 3, 1⟩

def s3 : Student :=
  ⟨"S3", "Bia", "333", ⟨2024, 1, 1⟩, none, none, none, none, 0, 50⟩

def db3 : DBState := ⟨[s3], []⟩

def s4 : Student :=
  ⟨"S4", "Caio", "444", ⟨2024, 1, 1⟩, none, none, none, none, -20, 50⟩

def db4 : DBState := ⟨[s4], []⟩

/-! ### Helper lemmas -/

/-- Summing the 0/1 `present` column equals counting the `present = true` rows. -/
theorem sum_presentInt_eq_count (l : List AttRecord) :
    (l.map presentInt).sum = ((l.filter (fun r => r.present)).length : Int) := by
  induction l with
  | nil => simp
  | cons a t ih =>
    cases ha : a.present <;>
      simp [presentInt, ha, ih, List.filter_cons]
    omega

/-- `get_student_full` on a matched student is determined by `riskExcept`. -/
theorem get_student_full_eq_match (db : DBState) (today : PyDate) (oracle : Oracle)
    (cpf : String) (s : Student)
    (hs : db.students.find? (fun t => t.cpf == cpf) = some s) :
    get_student_full db today oracle cpf =
      match riskExcept (historyOf db s) s.dias_contratados today oracle with
      | Except.error e => Except.error e
      | Except.ok chance => Except.ok (some (mkProfile s today (historyOf db s) chance)) := by
  unfold get_student_full
  rw [hs]

/-- A successfully computed profile is `mkProfile` of the matched student. -/
theorem get_student_full_ok_elim {db : DBState} {today : PyDate} {oracle : Oracle}
    {cpf : String} {s : Student} {p : Profile}
    (hs : db.students.find? (fun t => t.cpf == cpf) = some s)
    (hp : get_student_full db today oracle cpf = Except.ok (some p)) :
    p = mkProfile s today (historyOf db s) p.chance_evasao_percent := by
  rw [get_student_full_eq_match db today oracle cpf s hs] at hp
  cases hr : riskExcept (historyOf db s) s.dias_contratados today oracle with
  | error e =>
    rw [hr] at hp
    exact absurd hp (by simp)
  | ok c =>
    rw [hr] at hp
    simp only [Except.ok.injEq, Option.some.injEq] at hp
    subst hp
    rfl

/-- With fewer than two aggregate rows the risk is the ratio fallback,
under numpy division semantics. -/
theorem riskExcept_fallback {h : List AttRecord} {c : Int} {today : PyDate}
    {oracle : Oracle} (hlen : (periodsOf h).length < 2) :
    riskExcept h c today oracle =
      Except.ok (fallbackPercentF (c - currentPresentes h today.toPeriod) c) := by
  unfold riskExcept
  have h2 : ¬ 2 ≤ (aggFrame h c).length := by
    simp only [aggFrame, List.length_map]
    omega
  simp [h2]

/-- The churn label, restated as an integer comparison (the rational
comparison `faltas > c / 2` of the source, cleared of the denominator). -/
theorem churn_eq_true_iff (h : List AttRecord) (c : Int) (m : Period) :
    ((aggRow h c m).churn = true) ↔
      c < 2 * (((monthRecords h m).length : Int) - ((monthRecords h m).map presentInt).sum) := by
  simp only [aggRow, decide_eq_true_eq, gt_iff_lt]
  rw [div_lt_iff₀ (by norm_num : (0 : ℚ) < 2)]
  rw [show ((((monthRecords h m).length : Int) : ℚ) - (((monthRecords h m).map presentInt).sum : ℚ)) * 2
      = ((2 * (((monthRecords h m).length : Int) - ((monthRecords h m).map presentInt).sum) : Int) : ℚ) by
    push_cast
    ring]
  exact Int.cast_lt

/-- The status string, restated as an integer comparison. -/
theorem statusFor_eq_ativo_iff (c p : Int) :
    statusFor c p = "Ativo" ↔ (c : ℚ) * (1 / 2) ≤ (p : ℚ) := by
  unfold statusFor
  by_cases hc : (c : ℚ) * (1 / 2) ≤ (p : ℚ) <;> simp [hc]

/-- The status threshold over the integers: active iff `c ≤ 2 * p`. -/
theorem statusFor_eq_ativo_iff_int (c p : Int) :
    statusFor c p = "Ativo" ↔ c ≤ 2 * p := by
  rw [statusFor_eq_ativo_iff, mul_one_div, div_le_iff₀ (by norm_num : (0 : ℚ) < 2)]
  rw [show ((p : ℚ) * 2) = ((2 * p : Int) : ℚ) by push_cast; ring]
  exact Int.cast_le

/-- The status is always one of the two strings. -/
theorem statusFor_eq_or (c p : Int) :
    statusFor c p = "Ativo" ∨ statusFor c p = "Inativo" := by
  unfold statusFor
  split <;> simp

/-- With at least two aggregate rows whose churn labels form a single
class, the classifier fit raises. -/
theorem riskExcept_single_label {h : List AttRecord} {c : Int} {today : PyDate}
    {oracle : Oracle} (hlen : 2 ≤ (aggFrame h c).length)
    (hlab : ((aggFrame h c).map (fun a => a.churn)).dedup.length < 2) :
    riskExcept h c today oracle =
      Except.error "ValueError: This solver needs samples of at least 2 classes in the data" := by
  unfold riskExcept
  simp [hlen, hlab]

/-! ### Claim theorems -/

/-- C1: for a student whose history yields fewer than 2 monthly aggregate
rows (and a positive quota), `get_student_full` returns the ratio fallback
`round((dias_faltas / dias_contratados) * 100, 2)` with no clamping: at
quota 20 and 25 absences the formula gives 125.0, exceeding 100. -/
theorem C1_fallback_ratio_unclamped (db : DBState) (today : PyDate) (oracle : Oracle)
    (cpf : String) (s : Student)
    (hs : db.students.find? (fun t => t.cpf == cpf) = some s)
    (hlen : (periodsOf (historyOf db s)).length < 2)
    (hc : 0 < s.dias_contratados) :
    (∃ p : Profile, get_student_full db today oracle cpf = Except.ok (some p) ∧
      p.chance_evasao_percent =
        PyFloat.val (round2 (((p.dias_faltas : ℚ) / (s.dias_contratados : ℚ)) * 100))) ∧
    fallbackPercent 25 20 = 125 ∧ 100 < fallbackPercent 25 20 := by
  refine ⟨?_, by norm_num [fallbackPercent, round2, round_eq],
    by norm_num [fallbackPercent, round2, round_eq]⟩
  rw [get_student_full_eq_match db today oracle cpf s hs,
    riskExcept_fallback hlen]
  refine ⟨_, rfl, ?_⟩
  simp only [mkProfile, fallbackPercentF]
  rw [if_neg hc.ne']
  rfl

/-- Witness for C1 at a concrete student with an empty history. -/
theorem C1_witness :
    (∃ p : Profile, get_student_full wDB wToday zeroOracle "111" = Except.ok (some p) ∧
      p.chance_evasao_percent =
        PyFloat.val (round2 (((p.dias_faltas : ℚ) / (wStudent.dias_contratados : ℚ)) * 100))) ∧
    fallbackPercent 25 20 = 125 ∧ 100 < fallbackPercent 25 20 :=
  C1_fallback_ratio_unclamped wDB wToday zeroOracle "111" wStudent
    (by decide) (by decide) (by decide)

/-- C2: a student with two historical monthly aggregates that are both
churn periods makes `get_student_full` raise (`LogisticRegression.fit`
gets a single-class label vector), instead of returning the ratio
fallback the claim requires. -/
theorem C2_single_class_fit_raises :
    get_student_full db2 today2 zeroOracle "222" =
      Except.error "ValueError: This solver needs samples of at least 2 classes in the data" := by
  have hper : periodsOf (historyOf db2 s2) = [⟨2024, 1⟩, ⟨2024, 2⟩] := by decide
  have h1 : (aggRow (historyOf db2 s2) s2.dias_contratados ⟨2024, 1⟩).churn = true :=
    (churn_eq_true_iff _ _ _).mpr (by decide)
  have h2 : (aggRow (historyOf db2 s2) s2.dias_contratados ⟨2024, 2⟩).churn = true :=
    (churn_eq_true_iff _ _ _).mpr (by decide)
  have hmap : ((aggFrame (historyOf db2 s2) s2.dias_contratados).map (fun a => a.churn))
      = [true, true] := by
    simp [aggFrame, hper, h1, h2]
  rw [get_student_full_eq_match db2 today2 zeroOracle "222" s2 (by decide)]
  rw [riskExcept_single_label ?hlen ?hlab]
  case hlen =>
    simp [aggFrame, hper]
  case hlab =>
    rw [hmap]
    decide

/-- C3: on the ratio-fallback path the code has no quota guard: a quota of
0 makes the numpy division produce nan (returned inside a profile, with
only a RuntimeWarning), and a quota of -20 with an empty history returns
percent 100.0 — in neither case the 0.0 the claim requires. -/
theorem C3_nonpositive_quota_not_zero :
    (∃ p : Profile, get_student_full db3 wToday zeroOracle "333" = Except.ok (some p) ∧
      p.chance_evasao_percent = PyFloat.nan ∧
      p.chance_evasao_percent ≠ PyFloat.val 0) ∧
    (∃ p : Profile, get_student_full db4 wToday zeroOracle "444" = Except.ok (some p) ∧
      p.chance_evasao_percent = PyFloat.val 100 ∧
      p.chance_evasao_percent ≠ PyFloat.val 0) := by
  have h100 : fallbackPercent (-20) (-20) = 100 := by
    norm_num [fallbackPercent, round2, round_eq]
  constructor
  · refine ⟨mkProfile s3 wToday [] PyFloat.nan, ?_, rfl, by decide⟩
    rw [get_student_full_eq_match db3 wToday zeroOracle "333" s3 (by decide),
      riskExcept_fallback (by decide)]
    rfl
  · refine ⟨mkProfile s4 wToday [] (PyFloat.val (fallbackPercent (-20) (-20))),
      ?_, ?_, ?_⟩
    · rw [get_student_full_eq_match db4 wToday zeroOracle "444" s4 (by decide),
        riskExcept_fallback (by decide)]
      rfl
    · simp only [mkProfile]
      rw [h100]
    · simp only [mkProfile]
      rw [h100]
      decide

/-- The Python tuple comparison of the age computation, as a proposition. -/
theorem mdPrecedes_iff (a b : PyDate) :
    mdPrecedes a b = true ↔
      (a.month < b.month ∨ (a.month = b.month ∧ a.day < b.day)) := by
  unfold mdPrecedes
  simp [Bool.or_eq_true, Bool.and_eq_true, decide_eq_true_eq, beq_iff_eq]

/-- The profile computed for `wStudent` over `wDB` (shared by several
witnesses below). -/
theorem wProfile_eq :
    get_student_full wDB wToday zeroOracle "111" = Except.ok (some wProfile) := by
  rw [get_student_full_eq_match wDB wToday zeroOracle "111" wStudent (by decide),
    riskExcept_fallback (by decide)]
  rfl

/-- C4: the current-period presence count is the number of `present = true`
rows dated in the caller's current calendar month, and the absence count is
the quota deficit `dias_contratados - dias_presentes`; an empty history
gives a presence count of 0. -/
theorem C4_current_period_counts (db : DBState) (today : PyDate) (oracle : Oracle)
    (cpf : String) (s : Student) (p : Profile)
    (hs : db.students.find? (fun t => t.cpf == cpf) = some s)
    (hp : get_student_full db today oracle cpf = Except.ok (some p)) :
    p.dias_presentes =
      ((((historyOf db s).filter (fun r => r.date.toPeriod == today.toPeriod)).filter
        (fun r => r.present)).length : Int) ∧
    p.dias_faltas = s.dias_contratados - p.dias_presentes ∧
    (historyOf db s = [] → p.dias_presentes = 0) := by
  have hpe := get_student_full_ok_elim hs hp
  rw [hpe]
  refine ⟨sum_presentInt_eq_count _, rfl, fun he => ?_⟩
  rw [he]
  rfl

/-- Witness for C4 at a concrete student with an empty history. -/
theorem C4_witness :
    wProfile.dias_presentes =
      ((((historyOf wDB wStudent).filter
        (fun r => r.date.toPeriod == wToday.toPeriod)).filter
        (fun r => r.present)).length : Int) ∧
    wProfile.dias_faltas = wStudent.dias_contratados - wProfile.dias_presentes ∧
    (historyOf wDB wStudent = [] → wProfile.dias_presentes = 0) :=
  C4_current_period_counts wDB wToday zeroOracle "111" wStudent wProfile
    (by decide) wProfile_eq

/-- C5: the aggregate frame groups ALL attendance rows (current month
included, duplicates counted with multiplicity) by calendar month; each
month's row has `total` = number of its records, `presentes` = number of
its `present = true` records, `faltas = total - presentes`, and
`churn` true exactly when `faltas > dias_contratados / 2`. -/
theorem C5_monthly_aggregates (h : List AttRecord) (c : Int) (m : Period) :
    (m ∈ periodsOf h ↔ ∃ r ∈ h, r.date.toPeriod = m) ∧
    (aggRow h c m).total = ((h.filter (fun r => r.date.toPeriod == m)).length : Int) ∧
    (aggRow h c m).presentes =
      (((h.filter (fun r => r.date.toPeriod == m)).filter (fun r => r.present)).length : Int) ∧
    (aggRow h c m).faltas = (aggRow h c m).total - (aggRow h c m).presentes ∧
    ((aggRow h c m).churn = true ↔ ((aggRow h c m).faltas : ℚ) > (c : ℚ) / 2) := by
  refine ⟨?_, rfl, sum_presentInt_eq_count _, rfl, ?_⟩
  · simp [periodsOf, List.mem_dedup, List.mem_map]
  · simp only [aggRow, decide_eq_true_eq]
    push_cast
    exact Iff.rfl

/-- C6: an unmatched lookup key yields the explicit not-found result (the
Python `None`), not an exception and not a synthesized profile. -/
theorem C6_not_found (db : DBState) (today : PyDate) (oracle : Oracle) (cpf : String)
    (hs : db.students.find? (fun t => t.cpf == cpf) = none) :
    get_student_full db today oracle cpf = Except.ok none := by
  unfold get_student_full
  rw [hs]

/-- Witness for C6 on an empty students table. -/
theorem C6_witness :
    get_student_full ⟨[], []⟩ wToday zeroOracle "999" = Except.ok none :=
  C6_not_found ⟨[], []⟩ wToday zeroOracle "999" (by decide)

/-- C7: the age field is year difference minus one exactly when today's
(month, day) precedes the birth date's (month, day), and null without a
birth date; boundary: birth 2000-06-15 gives 23 on 2024-06-14 and 24 on
2024-06-15. -/
theorem C7_age (db : DBState) (today : PyDate) (oracle : Oracle)
    (cpf : String) (s : Student) (p : Profile)
    (hs : db.students.find? (fun t => t.cpf == cpf) = some s)
    (hp : get_student_full db today oracle cpf = Except.ok (some p)) :
    (∀ b : PyDate, s.data_nascimento = some b →
      p.idade = some (today.year - b.year -
        (if today.month < b.month ∨ (today.month = b.month ∧ today.day < b.day)
         then 1 else 0))) ∧
    (s.data_nascimento = none → p.idade = none) ∧
    computeAge ⟨2024, 6, 14⟩ ⟨2000, 6, 15⟩ = 23 ∧
    computeAge ⟨2024, 6, 15⟩ ⟨2000, 6, 15⟩ = 24 := by
  have hpe := get_student_full_ok_elim hs hp
  rw [hpe]
  refine ⟨fun b hb => ?_, fun hb => ?_, by decide, by decide⟩
  · simp only [mkProfile, hb, Option.map_some', Option.some.injEq, computeAge,
      mdPrecedes_iff]
  · simp [mkProfile, hb]

/-- Witness for C7 at a concrete student born 2000-06-15. -/
theorem C7_witness :
    (∀ b : PyDate, wStudent.data_nascimento = some b →
      wProfile.idade = some (wToday.year - b.year -
        (if wToday.month < b.month ∨ (wToday.month = b.month ∧ wToday.day < b.day)
         then 1 else 0))) ∧
    (wStudent.data_nascimento = none → wProfile.idade = none) ∧
    computeAge ⟨2024, 6, 14⟩ ⟨2000, 6, 15⟩ = 23 ∧
    computeAge ⟨2024, 6, 15⟩ ⟨2000, 6, 15⟩ = 24 :=
  C7_age wDB wToday zeroOracle "111" wStudent wProfile (by decide) wProfile_eq

/-- C8: months enrolled is the exact integer month arithmetic
`(today.year - matricula.year) * 12 + (today.month - matricula.month)`;
enrollment 2023-03-15 as of 2023-05-01 gives 2, and a future enrollment
date gives a negative value with no clamping. -/
theorem C8_months_enrolled (db : DBState) (today : PyDate) (oracle : Oracle)
    (cpf : String) (s : Student) (p : Profile)
    (hs : db.students.find? (fun t => t.cpf == cpf) = some s)
    (hp : get_student_full db today oracle cpf = Except.ok (some p)) :
    p.tempo_matricula_meses =
      (today.year - s.data_matricula.year) * 12 + (today.month - s.data_matricula.month) ∧
    monthsEnrolled ⟨2023, 5, 1⟩ ⟨2023, 3, 15⟩ = 2 ∧
    monthsEnrolled ⟨2024, 1, 1⟩ ⟨2024, 6, 10⟩ < 0 := by
  have hpe := get_student_full_ok_elim hs hp
  rw [hpe]
  exact ⟨rfl, by decide, by decide⟩

/-- Witness for C8 at a concrete student enrolled 2023-03-15. -/
theorem C8_witness :
    wProfile.tempo_matricula_meses =
      (wToday.year - wStudent.data_matricula.year) * 12 +
        (wToday.month - wStudent.data_matricula.month) ∧
    monthsEnrolled ⟨2023, 5, 1⟩ ⟨2023, 3, 15⟩ = 2 ∧
    monthsEnrolled ⟨2024, 1, 1⟩ ⟨2024, 6, 10⟩ < 0 :=
  C8_months_enrolled wDB wToday zeroOracle "111" wStudent wProfile
    (by decide) wProfile_eq

/-- C9: the status is the active string exactly when the current-period
presence count reaches half the quota; at quota 20, 10 presences give the
active status and 9 the inactive one. -/
theorem C9_status_threshold (db : DBState) (today : PyDate) (oracle : Oracle)
    (cpf : String) (s : Student) (p : Profile)
    (hs : db.students.find? (fun t => t.cpf == cpf) = some s)
    (hp : get_student_full db today oracle cpf = Except.ok (some p)) :
    (p.status_matricula = "Ativo" ↔
      (s.dias_contratados : ℚ) * (1 / 2) ≤ (p.dias_presentes : ℚ)) ∧
    (p.status_matricula = "Ativo" ∨ p.status_matricula = "Inativo") ∧
    statusFor 20 10 = "Ativo" ∧ statusFor 20 9 = "Inativo" := by
  have hpe := get_student_full_ok_elim hs hp
  rw [hpe]
  refine ⟨statusFor_eq_ativo_iff _ _, statusFor_eq_or _ _, ?_, ?_⟩
  · exact (statusFor_eq_ativo_iff_int 20 10).mpr (by decide)
  · rcases statusFor_eq_or 20 9 with hA | hI
    · exact absurd ((statusFor_eq_ativo_iff_int 20 9).mp hA) (by decide)
    · exact hI

/-- Witness for C9 at a concrete student. -/
theorem C9_witness :
    (wProfile.status_matricula = "Ativo" ↔
      (wStudent.dias_contratados : ℚ) * (1 / 2) ≤ (wProfile.dias_presentes : ℚ)) ∧
    (wProfile.status_matricula = "Ativo" ∨ wProfile.status_matricula = "Inativo") ∧
    statusFor 20 10 = "Ativo" ∧ statusFor 20 9 = "Inativo" :=
  C9_status_threshold wDB wToday zeroOracle "111" wStudent wProfile
    (by decide) wProfile_eq

/-- C10: replaying the database operation trace of `get_student_full` over
any stored state leaves the rows of both tables unchanged: the function
only reads. -/
theorem C10_reads_only (db : DBState) (cpf : String) :
    (get_student_full_ops db cpf).foldl applyOp db = db := by
  rcases hfind : db.students.find? (fun s => s.cpf == cpf) with _ | s <;>
    simp [get_student_full_ops, hfind, applyOp]

end HelpFit
